import Mathlib

/-!
# Verification of the ml-opt benchmark-instance generator

Shallow embedding of `src/instance_generator/ml-opt/main.py`.

Numeric values that are Python floats (`0.0`, `500.0`, `1000.0`, coefficients)
are modelled as rationals (`ℚ`); Python ints are `Nat`/`Int`.  Calendar
arithmetic (`datetime` + `timedelta(weeks=i)`) is modelled by proleptic
Gregorian ordinal arithmetic with the `datetime` library's supported range
(ordinals of 0001-01-01 .. 9999-12-31); an out-of-range result, which raises
`OverflowError` in Python, is modelled as `none`.  The external LightGBM
trainer is an oracle parameter; the driver is modelled as the trace of
file-system events it performs.
-/

namespace MlOpt

/-- Numeric value of a decimal digit character (`ord(c) - ord('0')`). -/
def digitVal (c : Char) : Nat := c.toNat - 48

/-- Decode a list of decimal digit characters into a natural number
(most significant digit first). -/
def decodeDigits (cs : List Char) : Nat :=
  cs.foldl (fun a c => 10 * a + digitVal c) 0

/-- The tabular dataset (`polars.DataFrame`): named numeric columns.
The generator only threads it through; no function under verification
reads its content. -/
structure DataFrame where
  columns : List (String × List ℚ)
deriving Repr, DecidableEq, Inhabited

/-- The `constant_features` dict of a unit: calendar snapshot keys
`year`, `month`, `day` (main.py lines 78-82). -/
structure ConstantFeatures where
  year : Int
  month : Int
  day : Int
deriving Repr, DecidableEq, Inhabited

/-- One unit record (main.py lines 75-84). -/
structure UnitRec where
  unit_id : Nat
  constant_features : ConstantFeatures
deriving Repr, DecidableEq, Inhabited

/-- One feature-bound record (main.py lines 102-109). -/
structure FeatureBound where
  name : String
  lower_bound : ℚ
  upper_bound : ℚ
  type : String
deriving Repr, DecidableEq, Inhabited

/-- One term of a sum constraint (main.py line 132). -/
structure SumTerm where
  unit_id : Nat
  feature : String
  coefficient : ℚ
deriving Repr, DecidableEq, Inhabited

/-- One per-unit sum constraint (main.py lines 135-142).  The field `vars`
models the JSON key `"variables"` (that spelling is a reserved word in
Lean). -/
structure SumConstraint where
  constraint_id : String
  description : String
  vars : List SumTerm
  upper_bound : ℚ
deriving Repr, DecidableEq, Inhabited

/-- The top-level instance document built by `create_instance_json`
(main.py lines 162-177).  Nested dict keys are flattened with
underscores (`features.optimization_features` ↦
`features_optimization_features`, etc.). -/
structure InstanceJson where
  n_units : Nat
  n_optimization_features : Nat
  n_constant_features : Nat
  n_sum_constraints : Nat
  features_optimization_features : List FeatureBound
  features_constant_features : List String
  units : List UnitRec
  constraints_sum_constraints : List SumConstraint
  model_file_path : String
  model_input_features_order : List String
deriving Repr, DecidableEq, Inhabited

/-- `_r2_score` (main.py lines 19-27): R² without scikit-learn.
`np.sum`, `np.mean` and elementwise ops are modelled over `ℚ`;
the `ss_tot == 0` guard is the `if` below. -/
def _r2_score (y_true y_pred : List ℚ) : ℚ :=
  let ss_res : ℚ := ((y_true.zipWith (fun a b => a - b) y_pred).map (fun d => d ^ 2)).sum
  let mean : ℚ := y_true.sum / (y_true.length : ℚ)
  let ss_tot : ℚ := (y_true.map (fun a => (a - mean) ^ 2)).sum
  if ss_tot = 0 then 0 else 1 - ss_res / ss_tot

/-! ## Calendar model (Python `datetime`)

Python `datetime` stores a proleptic-Gregorian date with
`date.toordinal() ∈ [1, 3652059]` (0001-01-01 .. 9999-12-31);
`datetime + timedelta(weeks=i)` adds `7*i` days to the ordinal and raises
`OverflowError` when the result leaves that range. -/

/-- A calendar date as Python `datetime` exposes it: `year`, `month`, `day`. -/
structure DateYMD where
  year : Int
  month : Int
  day : Int
deriving Repr, DecidableEq, Inhabited

/-- Proleptic-Gregorian ordinal of a date, with `toordinal ⟨1,1,1⟩ = 1`
(the convention of Python `date.toordinal`). -/
def toOrdinal (d : DateYMD) : Int :=
  let y : Int := if d.month ≤ 2 then d.year - 1 else d.year
  let era : Int := y / 400
  let yoe : Int := y - era * 400
  let mp : Int := (d.month + 9) % 12
  let doy : Int := (153 * mp + 2) / 5 + d.day - 1
  let doe : Int := yoe * 365 + yoe / 4 - yoe / 100 + doy
  era * 146097 + doe - 305

/-- Date with the given proleptic-Gregorian ordinal (inverse of `toOrdinal`;
the convention of Python `date.fromordinal`). -/
def fromOrdinal (n : Int) : DateYMD :=
  let z : Int := n + 305
  let era : Int := z / 146097
  let doe : Int := z - era * 146097
  let yoe : Int := (doe - doe / 1460 + doe / 36524 - doe / 146096) / 365
  let y : Int := yoe + era * 400
  let doy : Int := doe - (365 * yoe + yoe / 4 - yoe / 100)
  let mp : Int := (5 * doy + 2) / 153
  let day : Int := doy - (153 * mp + 2) / 5 + 1
  let month : Int := if mp < 10 then mp + 3 else mp - 9
  { year := if month ≤ 2 then y + 1 else y, month := month, day := day }

/-- `date.min.toordinal()` = ordinal of 0001-01-01. -/
def minOrdinal : Int := 1

/-- `date.max.toordinal()` = ordinal of 9999-12-31. -/
def maxOrdinal : Int := 3652059

/-- Date of an ordinal inside `datetime`'s supported range; `none` models
the `OverflowError` Python raises outside it. -/
def checkedFromOrdinal (n : Int) : Option DateYMD :=
  if minOrdinal ≤ n ∧ n ≤ maxOrdinal then some (fromOrdinal n) else none

/-- `True` iff `y` is a Gregorian leap year. -/
def isLeap (y : Int) : Bool :=
  (y % 4 = 0 && y % 100 != 0) || y % 400 = 0

/-- Number of days in month `m` of year `y`. -/
def daysInMonth (y m : Int) : Int :=
  if m = 2 then (if isLeap y then 29 else 28)
  else if m = 4 ∨ m = 6 ∨ m = 9 ∨ m = 11 then 30
  else 31

/-- Model of `datetime.strptime(s, "%Y-%m-%d")`: the year field is exactly
four digits, month and day are one or two digits, and the constructed date
must be valid (`1 ≤ year`, `1 ≤ month ≤ 12`, `1 ≤ day ≤ daysInMonth`);
any violation raises `ValueError` in Python, modelled as `none`. -/
def parseDate (s : String) : Option DateYMD :=
  match s.data.splitOn '-' with
  | [ys, ms, ds] =>
    if ys.length = 4 ∧ ys.all Char.isDigit ∧
       1 ≤ ms.length ∧ ms.length ≤ 2 ∧ ms.all Char.isDigit ∧
       1 ≤ ds.length ∧ ds.length ≤ 2 ∧ ds.all Char.isDigit then
      let y : Int := decodeDigits ys
      let m : Int := decodeDigits ms
      let d : Int := decodeDigits ds
      if 1 ≤ y ∧ 1 ≤ m ∧ m ≤ 12 ∧ 1 ≤ d ∧ d ≤ daysInMonth y m then
        some { year := y, month := m, day := d }
      else none
    else none
  | _ => none

/-- The `constant_features` dict built from a date (main.py lines 78-82). -/
def snapshotOf (d : DateYMD) : ConstantFeatures :=
  { year := d.year, month := d.month, day := d.day }

/-- `base + timedelta(weeks=i)` as a date value (before the range check). -/
def addWeeks (b : DateYMD) (i : Nat) : DateYMD :=
  fromOrdinal (toOrdinal b + 7 * (i : Int))

/-- The loop body of `generate_units` (main.py lines 72-84) over the index
list: for each index `i`, compute `base + timedelta(weeks=i)` (checked
against the `datetime` range) and emit the unit record. -/
def genUnitsAux (bord : Int) : List Nat → Option (List UnitRec)
  | [] => some []
  | i :: rest =>
    (checkedFromOrdinal (bord + 7 * (i : Int))).bind fun date =>
      (genUnitsAux bord rest).map fun us =>
        { unit_id := i, constant_features := snapshotOf date } :: us

/-- `generate_units` (main.py lines 60-86): weekly units from a base date.
`strptime` failure and `datetime` overflow are `none`. -/
def generate_units (n_units : Nat) (base_date : String := "2023-08-06") :
    Option (List UnitRec) :=
  (parseDate base_date).bind fun base =>
    genUnitsAux (toOrdinal base) (List.range n_units)

/-- `get_feature_bounds` (main.py lines 89-111): one `[0, 500]` continuous
bound record per optimization feature; `df` is accepted and ignored. -/
def get_feature_bounds (df : DataFrame) (opt_features : List String) :
    List FeatureBound :=
  opt_features.map fun feature =>
    { name := feature, lower_bound := 0, upper_bound := 500, type := "continuous" }

/-- `generate_sum_constraints` (main.py lines 114-144): per unit, the sum of
all optimization features bounded by 1000. -/
def generate_sum_constraints (n_units : Nat) (opt_features : List String) :
    List SumConstraint :=
  (List.range n_units).map fun unit_id =>
    { constraint_id := s!"unit_{unit_id}_total",
      description := s!"Total sum constraint for unit {unit_id}",
      vars :=
        opt_features.map fun feature =>
          { unit_id := unit_id, feature := feature, coefficient := 1 },
      upper_bound := 1000 }

/-- `create_instance_json` (main.py lines 147-179).  `n_estimators` is a
parameter of the Python function that its body does not use; `df` is only
passed through to `get_feature_bounds`.  A date overflow inside
`generate_units` propagates as `none`. -/
def create_instance_json (n_units : Nat) (n_estimators : Nat)
    (opt_features : List String) (const_features : List String)
    (df : DataFrame) (model_filename : String) : Option InstanceJson :=
  (generate_units n_units).map fun units =>
    let feature_bounds := get_feature_bounds df opt_features
    let sum_constraints := generate_sum_constraints n_units opt_features
    { n_units := n_units,
      n_optimization_features := opt_features.length,
      n_constant_features := const_features.length,
      n_sum_constraints := sum_constraints.length,
      features_optimization_features := feature_bounds,
      features_constant_features := const_features,
      units := units,
      constraints_sum_constraints := sum_constraints,
      model_file_path := model_filename,
      model_input_features_order := opt_features ++ const_features }

/-! ## The generation driver (`main`, main.py lines 182-231)

Modelled as the trace of externally visible events the driver performs, in
order.  The LightGBM trainer is an oracle `trainer` mapping
(feature columns, target column, boosting rounds) to the serialized bytes of
the booster that training produces; the dataset `df` is abstract.  Output
paths are relative to the run's output directory (`INSTANCE_PATH / "ml-opt"`,
from `src/consts.py`). -/

/-- An externally visible action of the driver. -/
inductive Event where
  | train (feature_cols : List String) (target_col : String) (n_estimators : Nat)
  | saveModel (path : String) (content : String)
  | writeInstance (path : String) (inst : InstanceJson)
deriving Repr, DecidableEq

/-- `make_predicotr` (main.py lines 30-57, name as in the source): trains a
booster on (`feature_cols`, `target_col`) with `n_estimators` rounds.
Returns the booster (its serialized bytes, from the oracle) together with
the training event it performs. -/
def make_predicotr (trainer : List String → String → Nat → String)
    (df : DataFrame) (feature_cols : List String) (target_col : String)
    (n_estimators : Nat) : String × List Event :=
  (trainer feature_cols target_col n_estimators,
   [Event.train feature_cols target_col n_estimators])

/-- `opt_feature_cols` (main.py line 194). -/
def opt_feature_cols : List String := ["x1", "x2", "x3", "x4", "x5", "x6", "x7"]

/-- `const_feature_cols` (main.py line 195). -/
def const_feature_cols : List String := ["year", "month", "day"]

/-- `feature_cols` (main.py line 196). -/
def feature_cols : List String := opt_feature_cols ++ const_feature_cols

/-- `n_estimators_list` (main.py line 199). -/
def n_estimators_list : List Nat := [100, 500, 1000, 5000]

/-- `n_units_list` (main.py line 200). -/
def n_units_list : List Nat := [1, 10, 50]

/-- Events of one inner-loop iteration (main.py lines 212-231): write the
JSON instance for `(n_units, n_estimators)`. -/
def instanceEvents (df : DataFrame) (n_estimators n_units : Nat) : List Event :=
  match create_instance_json n_units n_estimators opt_feature_cols
      const_feature_cols df s!"lgbm_{n_estimators}.txt" with
  | some inst =>
    [Event.writeInstance s!"instance_{n_units}units_{n_estimators}est.json" inst]
  | none => []

/-- The event trace of `main` (main.py lines 199-231): per complexity level,
train once, save the model, then write one instance per unit count. -/
def mainTrace (trainer : List String → String → Nat → String)
    (df : DataFrame) : List Event :=
  n_estimators_list.flatMap fun n_estimators =>
    let tr := make_predicotr trainer df feature_cols "y" n_estimators
    tr.2 ++ [Event.saveModel s!"lgbm_{n_estimators}.txt" tr.1]
      ++ n_units_list.flatMap fun n_units => instanceEvents df n_estimators n_units

/-- The instance files a trace writes, as (path, document) pairs, in order. -/
def instanceWrites : List Event → List (String × InstanceJson)
  | [] => []
  | Event.writeInstance p inst :: rest => (p, inst) :: instanceWrites rest
  | _ :: rest => instanceWrites rest

/-- The instance document the driver writes for a given configuration pair
(used to state concrete facts about the trace). -/
def instFor (df : DataFrame) (n_estimators n_units : Nat) : InstanceJson :=
  (create_instance_json n_units n_estimators opt_feature_cols
    const_feature_cols df s!"lgbm_{n_estimators}.txt").getD default

/-- A concrete trainer oracle, used to instantiate universally quantified
statements at a concrete input. -/
def trainerW : List String → String → Nat → String := fun _ _ _ => "model-bytes"

/-- A concrete dataset value, used to instantiate universally quantified
statements at a concrete input. -/
def dfW : DataFrame := { columns := [] }

/-! ## Decimal-representation helper lemmas

`generate_sum_constraints` derives constraint identifiers by decimal
formatting of the unit index; uniqueness of the identifiers reduces to
injectivity of decimal formatting, proved here through the left inverse
`decodeDigits`. -/

theorem decodeDigits_foldl (cs : List Char) (a : Nat) :
    cs.foldl (fun a c => 10 * a + digitVal c) a = a * 10 ^ cs.length + decodeDigits cs := by
  induction cs generalizing a with
  | nil => simp [decodeDigits]
  | cons c cs ih =>
    have h1 : decodeDigits (c :: cs) =
        cs.foldl (fun a c => 10 * a + digitVal c) (10 * 0 + digitVal c) := rfl
    simp only [List.foldl_cons, List.length_cons]
    rw [ih (10 * a + digitVal c), h1, ih (10 * 0 + digitVal c)]
    ring

theorem digitVal_digitChar (d : Nat) (h : d < 10) : digitVal (Nat.digitChar d) = d := by
  interval_cases d <;> rfl

theorem decodeDigits_toDigitsCore (fuel : Nat) :
    ∀ (n : Nat) (ds : List Char), n < fuel →
      decodeDigits (Nat.toDigitsCore 10 fuel n ds) = n * 10 ^ ds.length + decodeDigits ds := by
  induction fuel with
  | zero => intro n ds h; omega
  | succ fuel ih =>
    intro n ds h
    have hd : decodeDigits (Nat.digitChar (n % 10) :: ds) =
        (n % 10) * 10 ^ ds.length + decodeDigits ds := by
      have h2 : decodeDigits (Nat.digitChar (n % 10) :: ds) =
          ds.foldl (fun a c => 10 * a + digitVal c)
            (10 * 0 + digitVal (Nat.digitChar (n % 10))) := rfl
      rw [h2, decodeDigits_foldl, digitVal_digitChar _ (Nat.mod_lt n (by omega))]
      ring
    rw [Nat.toDigitsCore]
    by_cases h10 : n / 10 = 0
    · simp only [h10, if_true]
      have hn10 : n < 10 := by
        by_contra hc
        have h1 : 1 ≤ n / 10 := (Nat.one_le_div_iff (by omega)).mpr (by omega)
        omega
      rw [hd, Nat.mod_eq_of_lt hn10]
    · simp only [h10, if_false]
      have hlt : n / 10 < fuel := by
        have h1 : n / 10 < n := Nat.div_lt_self (by omega) (by omega)
        omega
      rw [ih (n / 10) (Nat.digitChar (n % 10) :: ds) hlt]
      rw [hd, List.length_cons, pow_succ]
      conv_rhs => rw [← Nat.div_add_mod n 10]
      ring

theorem decodeDigits_repr (n : Nat) : decodeDigits (Nat.repr n).data = n := by
  have h1 : (Nat.repr n).data = Nat.toDigits 10 n := rfl
  rw [h1, Nat.toDigits, decodeDigits_toDigitsCore (n + 1) n [] (by omega)]
  simp [decodeDigits]

theorem constraint_id_injective : Function.Injective (fun i : Nat => s!"unit_{i}_total") := by
  intro i j h
  have h1 : ("unit_" ++ Nat.repr i ++ "_total") = ("unit_" ++ Nat.repr j ++ "_total") := h
  have h2 : "unit_".data ++ ((Nat.repr i).data ++ "_total".data) =
      "unit_".data ++ ((Nat.repr j).data ++ "_total".data) := by
    have h3 := congrArg String.data h1
    simpa [String.data_append, List.append_assoc] using h3
  have h4 := List.append_cancel_right (List.append_cancel_left h2)
  have h5 := congrArg decodeDigits h4
  rwa [decodeDigits_repr, decodeDigits_repr] at h5

/-! ## Unit-generator lemmas -/

theorem genUnitsAux_some (bord : Int) (is : List Nat)
    (h : ∀ i ∈ is, minOrdinal ≤ bord + 7 * (i : Int) ∧ bord + 7 * (i : Int) ≤ maxOrdinal) :
    genUnitsAux bord is =
      some (is.map fun i =>
        { unit_id := i, constant_features := snapshotOf (fromOrdinal (bord + 7 * (i : Int))) }) := by
  induction is with
  | nil => rfl
  | cons i rest ih =>
    have hi := h i (List.mem_cons_self i rest)
    have hrest := ih fun j hj => h j (List.mem_cons_of_mem i hj)
    rw [genUnitsAux, checkedFromOrdinal, if_pos hi, Option.some_bind, hrest, Option.map_some']
    rfl

theorem genUnitsAux_shape (bord : Int) (is : List Nat) :
    ∀ L, genUnitsAux bord is = some L →
      L = is.map fun i =>
        { unit_id := i, constant_features := snapshotOf (fromOrdinal (bord + 7 * (i : Int))) } := by
  induction is with
  | nil =>
    intro L h
    rw [genUnitsAux] at h
    simpa using h.symm
  | cons i rest ih =>
    intro L h
    rw [genUnitsAux] at h
    rcases h1 : checkedFromOrdinal (bord + 7 * (i : Int)) with _ | d
    · rw [h1, Option.none_bind] at h
      exact absurd h (by simp)
    · rw [h1, Option.some_bind] at h
      rcases h2 : genUnitsAux bord rest with _ | us
      · rw [h2] at h
        exact absurd h (by simp)
      · rw [h2, Option.map_some'] at h
        have hd : d = fromOrdinal (bord + 7 * (i : Int)) := by
          rw [checkedFromOrdinal] at h1
          split at h1
          · exact (Option.some.inj h1).symm
          · exact absurd h1 (by simp)
        have hus := ih us h2
        rw [List.map_cons, ← hus, ← hd]
        exact (Option.some.inj h).symm

/-! ## Claim theorems -/

/-- **C2.** For every pair of equal-length rational sequences where the
ground-truth sequence has zero variance (all entries equal a common value
`c`), `_r2_score` returns exactly `0`: the zero total sum of squares takes
the guarded branch, so the division by `ss_tot` — and with it any division
by zero, NaN or infinity — is unreachable. -/
theorem r2_score_zero_variance (y_true y_pred : List ℚ) (c : ℚ)
    (hlen : y_true.length = y_pred.length) (hconst : ∀ y ∈ y_true, y = c) :
    _r2_score y_true y_pred = 0 := by
  have htot : (y_true.map (fun a => (a - y_true.sum / (y_true.length : ℚ)) ^ 2)).sum = 0 := by
    cases y_true with
    | nil => simp
    | cons y ys =>
      have hmean : (y :: ys).sum / (((y :: ys).length : ℕ) : ℚ) = c := by
        rw [List.sum_eq_card_nsmul (y :: ys) c hconst, nsmul_eq_mul]
        have hne : (((y :: ys).length : ℕ) : ℚ) ≠ 0 := by
          simp only [List.length_cons, Nat.cast_add, Nat.cast_one]
          exact Nat.cast_add_one_ne_zero ys.length
        field_simp
      apply List.sum_eq_zero
      intro x hx
      simp only [List.mem_map] at hx
      obtain ⟨a, ha, rfl⟩ := hx
      rw [hmean, hconst a ha]
      ring
  simp only [_r2_score]
  rw [if_pos htot]

/-- Witness for `r2_score_zero_variance` at a concrete input. -/
theorem r2_score_zero_variance_witness : _r2_score [2, 2] [1, 3] = 0 :=
  r2_score_zero_variance [2, 2] [1, 3] 2 (by decide) (by decide)

/-- **C4.** For every dataset and every optimization-feature name list,
`get_feature_bounds` returns one record per name, in the same order, with
`lower_bound = 0.0`, `upper_bound = 500.0`, `type = "continuous"` — hence
`lower_bound ≤ upper_bound` — regardless of the dataset's content. -/
theorem get_feature_bounds_spec (df : DataFrame) (opt_features : List String) :
    (get_feature_bounds df opt_features).length = opt_features.length
    ∧ (get_feature_bounds df opt_features).map FeatureBound.name = opt_features
    ∧ ∀ b ∈ get_feature_bounds df opt_features,
        b.lower_bound = 0 ∧ b.upper_bound = 500 ∧ b.type = "continuous"
        ∧ b.lower_bound ≤ b.upper_bound := by
  refine ⟨by simp [get_feature_bounds], ?_, ?_⟩
  · simp only [get_feature_bounds, List.map_map]
    exact List.map_id opt_features
  · intro b hb
    simp only [get_feature_bounds, List.mem_map] at hb
    obtain ⟨f, hf, rfl⟩ := hb
    refine ⟨rfl, rfl, rfl, by norm_num⟩

/-- **C5.** For every unit count `N` and optimization-feature list,
`generate_sum_constraints` returns exactly `N` constraints, one per unit
index `i`, with identifier `unit_<i>_total`, term list
`{(i, f, 1.0) : f in the list}` in the list's order, and upper bound
`1000.0`; the identifiers are pairwise distinct. -/
theorem generate_sum_constraints_spec (n_units : Nat) (opt_features : List String) :
    generate_sum_constraints n_units opt_features =
      (List.range n_units).map (fun i =>
        { constraint_id := s!"unit_{i}_total",
          description := s!"Total sum constraint for unit {i}",
          vars := opt_features.map fun f => { unit_id := i, feature := f, coefficient := 1 },
          upper_bound := 1000 })
    ∧ (generate_sum_constraints n_units opt_features).length = n_units
    ∧ ((generate_sum_constraints n_units opt_features).map SumConstraint.constraint_id).Nodup := by
  refine ⟨rfl, by simp [generate_sum_constraints], ?_⟩
  have h1 : (generate_sum_constraints n_units opt_features).map SumConstraint.constraint_id =
      (List.range n_units).map fun i => s!"unit_{i}_total" := by
    simp [generate_sum_constraints, List.map_map]
  rw [h1]
  exact (List.nodup_range n_units).map constraint_id_injective

/-- **C9.** An instance assembled by `create_instance_json` from 7
optimization-feature names, 3 constant-feature names and unit count 1 has
`n_units = 1`, `n_optimization_features = 7`, `n_constant_features = 3`,
`n_sum_constraints = 1`, and its first (only) sum constraint has upper
bound `1000.0`. -/
theorem instance_scenario_7_3_1 (n_estimators : Nat) (opt_features const_features : List String)
    (df : DataFrame) (mf : String)
    (h7 : opt_features.length = 7) (h3 : const_features.length = 3) :
    ∃ inst, create_instance_json 1 n_estimators opt_features const_features df mf = some inst
      ∧ inst.n_units = 1 ∧ inst.n_optimization_features = 7 ∧ inst.n_constant_features = 3
      ∧ inst.n_sum_constraints = 1
      ∧ inst.constraints_sum_constraints.head?.map SumConstraint.upper_bound = some 1000 := by
  have hu : generate_units 1 = some [{ unit_id := 0, constant_features := ⟨2023, 8, 6⟩ }] := by
    decide
  rw [create_instance_json, hu, Option.map_some']
  refine ⟨_, rfl, rfl, h7, h3, ?_, ?_⟩
  · simp [generate_sum_constraints]
  · simp [generate_sum_constraints, List.range_succ]

/-- **C3, counterexample.** The claim quantifies over every base calendar
date and every unit count, but `9999-12-31` is a valid calendar date
(`strptime` accepts it) for which `generate_units 2` does not return two
units: computing `base + timedelta(weeks=1)` leaves the range supported by
`datetime` and raises `OverflowError` (modelled as `none`). -/
theorem generate_units_overflow_counterexample :
    parseDate "9999-12-31" = some ⟨9999, 12, 31⟩
    ∧ generate_units 2 "9999-12-31" = none := by
  constructor <;> decide

/-- **C3, amended.** For every unit count `N ≥ 0` and every base calendar
date all of whose advanced dates `base + i weeks` (`i < N`) stay within the
calendar range supported by `datetime` (0001-01-01 .. 9999-12-31),
`generate_units` returns exactly `N` units whose `unit_id` values are
`0..N-1` in ascending order, unit `i` carrying the `(year, month, day)`
snapshot of `base + i weeks`; for `N = 0` it returns the empty sequence
rather than failing. -/
theorem generate_units_spec (n_units : Nat) (base_date : String) (b : DateYMD)
    (hparse : parseDate base_date = some b)
    (hrange : ∀ i : Nat, i < n_units →
      minOrdinal ≤ toOrdinal b + 7 * (i : Int) ∧ toOrdinal b + 7 * (i : Int) ≤ maxOrdinal) :
    generate_units n_units base_date =
      some ((List.range n_units).map fun i =>
        { unit_id := i, constant_features := snapshotOf (addWeeks b i) })
    ∧ (generate_units n_units base_date).map List.length = some n_units
    ∧ (generate_units n_units base_date).map (List.map UnitRec.unit_id)
        = some (List.range n_units) := by
  have h1 : generate_units n_units base_date =
      some ((List.range n_units).map fun i =>
        { unit_id := i, constant_features := snapshotOf (addWeeks b i) }) := by
    rw [generate_units, hparse, Option.some_bind]
    exact genUnitsAux_some (toOrdinal b) (List.range n_units)
      fun i hi => hrange i (List.mem_range.mp hi)
  refine ⟨h1, ?_, ?_⟩ <;> rw [h1, Option.map_some']
  · simp
  · rw [List.map_map]
    exact congrArg some (List.map_id (List.range n_units))

/-- Witness for `generate_units_spec` at a concrete input. -/
theorem generate_units_spec_witness :
    generate_units 3 "2023-08-06" =
      some ((List.range 3).map fun i =>
        { unit_id := i, constant_features := snapshotOf (addWeeks ⟨2023, 8, 6⟩ i) })
    ∧ (generate_units 3 "2023-08-06").map List.length = some 3
    ∧ (generate_units 3 "2023-08-06").map (List.map UnitRec.unit_id) = some (List.range 3) :=
  generate_units_spec 3 "2023-08-06" ⟨2023, 8, 6⟩ (by decide) (by decide)

/-- **C10.** Every instance produced by `create_instance_json` — whatever
the values of all its parameters, hence also every instance the driver
produces — has its unit sequence anchored at the fixed base date
2023-08-06: unit `i` carries the snapshot of `2023-08-06 + i weeks`, and
for a nonempty unit list unit 0 carries `{year := 2023, month := 8,
day := 6}`. -/
theorem base_date_fixed (n_units n_estimators : Nat)
    (opt_features const_features : List String) (df : DataFrame) (mf : String)
    (inst : InstanceJson)
    (h : create_instance_json n_units n_estimators opt_features const_features df mf
      = some inst) :
    inst.units = ((List.range n_units).map fun i =>
      { unit_id := i, constant_features := snapshotOf (addWeeks ⟨2023, 8, 6⟩ i) })
    ∧ (0 < n_units → inst.units.head? = some { unit_id := 0, constant_features := ⟨2023, 8, 6⟩ }) := by
  rw [create_instance_json] at h
  rcases hgen : generate_units n_units with _ | us
  · rw [hgen, Option.map_none'] at h
    exact absurd h (by simp)
  · rw [hgen, Option.map_some'] at h
    have hinst := Option.some.inj h
    have hb : parseDate "2023-08-06" = some ⟨2023, 8, 6⟩ := by decide
    rw [generate_units, hb, Option.some_bind] at hgen
    have hus := genUnitsAux_shape (toOrdinal ⟨2023, 8, 6⟩) (List.range n_units) us hgen
    have hunits : inst.units = (List.range n_units).map fun i =>
        { unit_id := i, constant_features := snapshotOf (addWeeks ⟨2023, 8, 6⟩ i) } := by
      rw [← hinst]
      exact hus
    refine ⟨hunits, fun hpos => ?_⟩
    rcases n_units with _ | m
    · omega
    · rw [hunits, List.range_succ_eq_map]
      simp only [List.map_cons, List.head?_cons]
      have h0 : snapshotOf (addWeeks ⟨2023, 8, 6⟩ 0) = ⟨2023, 8, 6⟩ := by decide
      rw [h0]

/-- Witness for `base_date_fixed` at a concrete input. -/
theorem base_date_fixed_witness :
    (instFor dfW 100 1).units = ((List.range 1).map fun i =>
      { unit_id := i, constant_features := snapshotOf (addWeeks ⟨2023, 8, 6⟩ i) })
    ∧ (0 < 1 → (instFor dfW 100 1).units.head?
        = some { unit_id := 0, constant_features := ⟨2023, 8, 6⟩ }) :=
  base_date_fixed 1 100 opt_feature_cols const_feature_cols dfW "lgbm_100.txt"
    (instFor dfW 100 1) rfl

/-- Witness for `instance_scenario_7_3_1` at a concrete input. -/
theorem instance_scenario_7_3_1_witness :
    ∃ inst, create_instance_json 1 100 opt_feature_cols const_feature_cols dfW "lgbm_100.txt"
        = some inst
      ∧ inst.n_units = 1 ∧ inst.n_optimization_features = 7 ∧ inst.n_constant_features = 3
      ∧ inst.n_sum_constraints = 1
      ∧ inst.constraints_sum_constraints.head?.map SumConstraint.upper_bound = some 1000 :=
  instance_scenario_7_3_1 100 opt_feature_cols const_feature_cols dfW "lgbm_100.txt"
    (by decide) (by decide)

/-! ## Driver-trace lemmas -/

/-- The driver's event trace, written out: per complexity level in grid
order, one training event, one model save, then the three instance writes
(unit counts 1, 10, 50). -/
theorem mainTrace_eq (trainer : List String → String → Nat → String) (df : DataFrame) :
    mainTrace trainer df = [
      Event.train feature_cols "y" 100,
      Event.saveModel "lgbm_100.txt" (trainer feature_cols "y" 100),
      Event.writeInstance "instance_1units_100est.json" (instFor df 100 1),
      Event.writeInstance "instance_10units_100est.json" (instFor df 100 10),
      Event.writeInstance "instance_50units_100est.json" (instFor df 100 50),
      Event.train feature_cols "y" 500,
      Event.saveModel "lgbm_500.txt" (trainer feature_cols "y" 500),
      Event.writeInstance "instance_1units_500est.json" (instFor df 500 1),
      Event.writeInstance "instance_10units_500est.json" (instFor df 500 10),
      Event.writeInstance "instance_50units_500est.json" (instFor df 500 50),
      Event.train feature_cols "y" 1000,
      Event.saveModel "lgbm_1000.txt" (trainer feature_cols "y" 1000),
      Event.writeInstance "instance_1units_1000est.json" (instFor df 1000 1),
      Event.writeInstance "instance_10units_1000est.json" (instFor df 1000 10),
      Event.writeInstance "instance_50units_1000est.json" (instFor df 1000 50),
      Event.train feature_cols "y" 5000,
      Event.saveModel "lgbm_5000.txt" (trainer feature_cols "y" 5000),
      Event.writeInstance "instance_1units_5000est.json" (instFor df 5000 1),
      Event.writeInstance "instance_10units_5000est.json" (instFor df 5000 10),
      Event.writeInstance "instance_50units_5000est.json" (instFor df 5000 50)] := rfl

/-- **C8.** The JSON instance files the driver writes — their paths, their
documents, and hence (under any fixed serializer, and `json.dump` with a
fixed indent is a deterministic function of the document) their bytes — are
identical across any two runs over the same dataset: they do not depend on
the external training component at all, which is the only source of
nondeterminism the driver invokes after `random.seed(42)`. -/
theorem driver_instance_determinism
    (trainer1 trainer2 : List String → String → Nat → String) (df : DataFrame)
    (serialize : InstanceJson → String) :
    (instanceWrites (mainTrace trainer1 df)).map (fun w => (w.1, serialize w.2)) =
    (instanceWrites (mainTrace trainer2 df)).map (fun w => (w.1, serialize w.2)) := rfl

/-- **C1.** Every instance `create_instance_json` produces carries
`model.input_features_order = opt_features ++ const_features`, in that
order; and in the driver, every written instance carries
`opt_feature_cols ++ const_feature_cols`, which is exactly the column
order (`feature_cols`) the trainer was given when fitting the model the
instance references by file name. -/
theorem input_features_order_invariant :
    (∀ (n_units n_estimators : Nat) (opt_features const_features : List String)
       (df : DataFrame) (mf : String) (inst : InstanceJson),
       create_instance_json n_units n_estimators opt_features const_features df mf
         = some inst →
       inst.model_input_features_order = opt_features ++ const_features)
    ∧ ∀ (trainer : List String → String → Nat → String) (df : DataFrame)
        (p : String) (inst : InstanceJson),
        Event.writeInstance p inst ∈ mainTrace trainer df →
        inst.model_input_features_order = opt_feature_cols ++ const_feature_cols
        ∧ ∃ n_estimators, inst.model_file_path = s!"lgbm_{n_estimators}.txt"
            ∧ Event.train (opt_feature_cols ++ const_feature_cols) "y" n_estimators
                ∈ mainTrace trainer df := by
  constructor
  · intro n nE opt const df mf inst h
    rw [create_instance_json] at h
    rcases hgen : generate_units n with _ | us
    · rw [hgen, Option.map_none'] at h
      exact absurd h (by simp)
    · rw [hgen, Option.map_some'] at h
      rw [← Option.some.inj h]
  · intro trainer df p inst h
    rw [mainTrace_eq] at h
    simp only [List.mem_cons, List.not_mem_nil, or_false] at h
    rcases h with h|h|h|h|h|h|h|h|h|h|h|h|h|h|h|h|h|h|h|h <;>
    first
    | exact Event.noConfusion h
    | (obtain ⟨hp, hi⟩ := Event.writeInstance.inj h
       subst hi
       refine ⟨rfl, ?_⟩
       first
       | exact ⟨100, rfl, by rw [mainTrace_eq]; simp [feature_cols]⟩
       | exact ⟨500, rfl, by rw [mainTrace_eq]; simp [feature_cols]⟩
       | exact ⟨1000, rfl, by rw [mainTrace_eq]; simp [feature_cols]⟩
       | exact ⟨5000, rfl, by rw [mainTrace_eq]; simp [feature_cols]⟩)

/-- Witness for `input_features_order_invariant` at a concrete input. -/
theorem input_features_order_invariant_witness :
    (instFor dfW 100 1).model_input_features_order = opt_feature_cols ++ const_feature_cols
    ∧ ((instFor dfW 100 1).model_input_features_order
        = opt_feature_cols ++ const_feature_cols
      ∧ ∃ n_estimators, (instFor dfW 100 1).model_file_path = s!"lgbm_{n_estimators}.txt"
          ∧ Event.train (opt_feature_cols ++ const_feature_cols) "y" n_estimators
              ∈ mainTrace trainerW dfW) :=
  ⟨input_features_order_invariant.1 1 100 opt_feature_cols const_feature_cols dfW
      "lgbm_100.txt" (instFor dfW 100 1) rfl,
   input_features_order_invariant.2 trainerW dfW "instance_1units_100est.json"
      (instFor dfW 100 1) (by decide)⟩

/-- **C7.** In every driver run: each complexity level of the grid has
exactly one training event and exactly one model save; every instance write
is strictly preceded in the trace by the save of the model file it
references (so the one trained model is reused, not retrained, across the
unit counts of its level); and each written instance's `model.file_path`
names the model file of its own complexity level. -/
theorem driver_train_persist_order
    (trainer : List String → String → Nat → String) (df : DataFrame) :
    (∀ n_est ∈ n_estimators_list,
      ((mainTrace trainer df).filter fun e =>
          match e with
          | Event.train _ _ k => k == n_est
          | _ => false).length = 1
      ∧ ((mainTrace trainer df).filter fun e =>
          match e with
          | Event.saveModel q _ => q == s!"lgbm_{n_est}.txt"
          | _ => false).length = 1)
    ∧ ∀ (i : Nat) (p : String) (inst : InstanceJson),
        (mainTrace trainer df)[i]? = some (Event.writeInstance p inst) →
        (∃ j c, j < i
          ∧ (mainTrace trainer df)[j]? = some (Event.saveModel inst.model_file_path c))
        ∧ ∃ n_est n_units, n_est ∈ n_estimators_list ∧ n_units ∈ n_units_list
            ∧ p = s!"instance_{n_units}units_{n_est}est.json"
            ∧ inst.model_file_path = s!"lgbm_{n_est}.txt" := by
  constructor
  · intro nE hnE
    simp only [n_estimators_list, List.mem_cons, List.not_mem_nil, or_false] at hnE
    rcases hnE with rfl | rfl | rfl | rfl <;> rw [mainTrace_eq] <;> exact ⟨rfl, rfl⟩
  · intro i p inst h
    rw [mainTrace_eq] at h
    rw [mainTrace_eq]
    have hlen : i < 20 := by
      by_contra hc
      rw [List.getElem?_eq_none
        (by simp only [List.length_cons, List.length_nil]; omega)] at h
      exact Option.noConfusion h
    interval_cases i
    · exact Event.noConfusion (Option.some.inj h)
    · exact Event.noConfusion (Option.some.inj h)
    · obtain ⟨hp, hi⟩ := Event.writeInstance.inj (Option.some.inj h)
      subst hp; subst hi
      exact ⟨⟨1, trainer feature_cols "y" 100, by omega, rfl⟩,
        100, 1, by decide, by decide, rfl, rfl⟩
    · obtain ⟨hp, hi⟩ := Event.writeInstance.inj (Option.some.inj h)
      subst hp; subst hi
      exact ⟨⟨1, trainer feature_cols "y" 100, by omega, rfl⟩,
        100, 10, by decide, by decide, rfl, rfl⟩
    · obtain ⟨hp, hi⟩ := Event.writeInstance.inj (Option.some.inj h)
      subst hp; subst hi
      exact ⟨⟨1, trainer feature_cols "y" 100, by omega, rfl⟩,
        100, 50, by decide, by decide, rfl, rfl⟩
    · exact Event.noConfusion (Option.some.inj h)
    · exact Event.noConfusion (Option.some.inj h)
    · obtain ⟨hp, hi⟩ := Event.writeInstance.inj (Option.some.inj h)
      subst hp; subst hi
      exact ⟨⟨6, trainer feature_cols "y" 500, by omega, rfl⟩,
        500, 1, by decide, by decide, rfl, rfl⟩
    · obtain ⟨hp, hi⟩ := Event.writeInstance.inj (Option.some.inj h)
      subst hp; subst hi
      exact ⟨⟨6, trainer feature_cols "y" 500, by omega, rfl⟩,
        500, 10, by decide, by decide, rfl, rfl⟩
    · obtain ⟨hp, hi⟩ := Event.writeInstance.inj (Option.some.inj h)
      subst hp; subst hi
      exact ⟨⟨6, trainer feature_cols "y" 500, by omega, rfl⟩,
        500, 50, by decide, by decide, rfl, rfl⟩
    · exact Event.noConfusion (Option.some.inj h)
    · exact Event.noConfusion (Option.some.inj h)
    · obtain ⟨hp, hi⟩ := Event.writeInstance.inj (Option.some.inj h)
      subst hp; subst hi
      exact ⟨⟨11, trainer feature_cols "y" 1000, by omega, rfl⟩,
        1000, 1, by decide, by decide, rfl, rfl⟩
    · obtain ⟨hp, hi⟩ := Event.writeInstance.inj (Option.some.inj h)
      subst hp; subst hi
      exact ⟨⟨11, trainer feature_cols "y" 1000, by omega, rfl⟩,
        1000, 10, by decide, by decide, rfl, rfl⟩
    · obtain ⟨hp, hi⟩ := Event.writeInstance.inj (Option.some.inj h)
      subst hp; subst hi
      exact ⟨⟨11, trainer feature_cols "y" 1000, by omega, rfl⟩,
        1000, 50, by decide, by decide, rfl, rfl⟩
    · exact Event.noConfusion (Option.some.inj h)
    · exact Event.noConfusion (Option.some.inj h)
    · obtain ⟨hp, hi⟩ := Event.writeInstance.inj (Option.some.inj h)
      subst hp; subst hi
      exact ⟨⟨16, trainer feature_cols "y" 5000, by omega, rfl⟩,
        5000, 1, by decide, by decide, rfl, rfl⟩
    · obtain ⟨hp, hi⟩ := Event.writeInstance.inj (Option.some.inj h)
      subst hp; subst hi
      exact ⟨⟨16, trainer feature_cols "y" 5000, by omega, rfl⟩,
        5000, 10, by decide, by decide, rfl, rfl⟩
    · obtain ⟨hp, hi⟩ := Event.writeInstance.inj (Option.some.inj h)
      subst hp; subst hi
      exact ⟨⟨16, trainer feature_cols "y" 5000, by omega, rfl⟩,
        5000, 50, by decide, by decide, rfl, rfl⟩

/-- Witness for `driver_train_persist_order` at a concrete input. -/
theorem driver_train_persist_order_witness :
    (((mainTrace trainerW dfW).filter fun e =>
        match e with
        | Event.train _ _ k => k == 100
        | _ => false).length = 1
      ∧ ((mainTrace trainerW dfW).filter fun e =>
        match e with
        | Event.saveModel q _ => q == s!"lgbm_{(100 : Nat)}.txt"
        | _ => false).length = 1)
    ∧ (∃ j c, j < 2
        ∧ (mainTrace trainerW dfW)[j]?
            = some (Event.saveModel ((instFor dfW 100 1).model_file_path) c))
      ∧ ∃ n_est n_units, n_est ∈ n_estimators_list ∧ n_units ∈ n_units_list
          ∧ "instance_1units_100est.json" = s!"instance_{n_units}units_{n_est}est.json"
          ∧ (instFor dfW 100 1).model_file_path = s!"lgbm_{n_est}.txt" :=
  ⟨(driver_train_persist_order trainerW dfW).1 100 (by decide),
   (driver_train_persist_order trainerW dfW).2 2 "instance_1units_100est.json"
     (instFor dfW 100 1) rfl⟩

end MlOpt
